import Mathlib

/-!
Verification development for the reminder CRUD service.

The embedding mirrors the repository sources:
  - app/models/reminder: the Reminder entity (columns id, user_id, date, text).
    Column id comes from the declarative Base with primary_key=True and a
    uuid4 default; the Reminder model additionally declares user_id with
    primary_key=True, so the mapped table has the composite primary key
    (id, user_id).  Server-generated uuid4 identifiers are modelled as a
    fresh-counter draw (field nextId of the store state): each create uses
    the current counter value and bumps it, so a generated identifier never
    collides with an earlier one.  Owner identifiers are the raw strings the
    routes read from the X-User-Id header; calendar dates are modelled as
    integers carrying only their ordering.
  - core/db/repository.py: DatabaseRepository.create / get / filter /
    delete / update, with the variadic predicate arguments modelled as a
    list of Pred values combined by logical AND.
  - api/reminder: the four route handlers and the pydantic DTO shapes.
-/

namespace ReminderService

/-- Persisted Reminder entity: columns id (server generated), user_id
(owner, stored from the X-User-Id header string), date and text.  The
user_id column is postgres UUID-typed in the source; it is carried here
as the owner string, and the uuid parse performed when a string is bound
to that column is modelled separately (string_to_uuid_ok, getWithBinding
below) where a claim depends on it — on well-formed owner values the
binding always succeeds and the plain operations are exact. -/
structure Reminder where
  id : Nat
  user_id : String
  date : Int
  text : String
  deriving Repr, DecidableEq

/-- One comparison predicate as built by the route layer and passed to the
repository: the routes use equality on id / user_id / text / date and the
two date-range comparisons Reminder.date >= v and Reminder.date <= v. -/
inductive Pred where
  | idEq (v : Nat)
  | userIdEq (v : String)
  | textEq (v : String)
  | dateEq (v : Int)
  | dateGe (v : Int)
  | dateLe (v : Int)
  deriving Repr, DecidableEq

/-- Evaluation of a single predicate against a row. -/
def Pred.holds : Pred → Reminder → Bool
  | .idEq v, r => r.id == v
  | .userIdEq v, r => r.user_id == v
  | .textEq v, r => r.text == v
  | .dateEq v, r => r.date == v
  | .dateGe v, r => v ≤ r.date
  | .dateLe v, r => r.date ≤ v

/-- Conjunction of a predicate list, as query.where(*args) combines the
variadic arguments by AND; the empty list filters nothing. -/
def matchesAll (args : List Pred) (r : Reminder) : Bool :=
  args.all (fun p => p.holds r)

/-- Store state: the reminders table plus the fresh-identifier counter
modelling the uuid4 default of the id column. -/
structure DBState where
  rows : List Reminder
  nextId : Nat
  deriving Repr, DecidableEq

/-- The empty store. -/
def initialState : DBState := { rows := [], nextId := 0 }

/-- Shape of a raised HTTPException: status_code and the error_message
field of its detail body. -/
structure HTTPException where
  status_code : Nat
  error_message : String
  deriving Repr, DecidableEq

namespace DatabaseRepository

/-- DatabaseRepository.create: constructs an instance from the supplied
fields (the id column filled by its uuid4 default, modelled as the fresh
counter value), adds and commits it, and returns the refreshed instance
together with the new store state. -/
def create (s : DBState) (user_id : String) (text : String) (date : Int) :
    Reminder × DBState :=
  let inst : Reminder := { id := s.nextId, user_id := user_id, date := date, text := text }
  (inst, { rows := s.rows ++ [inst], nextId := s.nextId + 1 })

/-- DatabaseRepository.get: select with the predicate list applied when
non-empty, returning the first resulting row via session.scalar, or none
when no row matches.  With an empty predicate list the where clause is
omitted, so the first table row (if any) is returned. -/
def get (s : DBState) (args : List Pred) : Option Reminder :=
  (s.rows.filter (matchesAll args)).head?

/-- DatabaseRepository.filter: select with the predicate list applied when
non-empty, returning all resulting rows.  With an empty predicate list the
where clause is omitted, so every table row is returned. -/
def filter (s : DBState) (args : List Pred) : List Reminder :=
  s.rows.filter (matchesAll args)

/-- DatabaseRepository.delete: fetches the first match of the predicates
via get; if an object was found it is deleted and the session committed,
otherwise nothing happens. -/
def delete (s : DBState) (args : List Pred) : DBState :=
  match get s args with
  | none => s
  | some obj => { s with rows := s.rows.eraseP (fun r => r == obj) }

/-- Field overwrites supplied to update as the data dict. -/
inductive FieldVal where
  | userIdField (v : String)
  | dateField (v : Int)
  | textField (v : String)
  deriving Repr, DecidableEq

/-- setattr of one field on an entity instance. -/
def setattr (r : Reminder) : FieldVal → Reminder
  | .userIdField v => { r with user_id := v }
  | .dateField v => { r with date := v }
  | .textField v => { r with text := v }

/-- An argument passed to Session.get where a primary-key identity is
expected: a legal identity value (uuid or string), or a SQLAlchemy
comparison expression object such as self.model.id == id. -/
inductive IdentVal where
  | uuidVal (v : Nat)
  | strVal (v : String)
  | exprVal (p : Pred)
  deriving Repr, DecidableEq

/-- Width of the Reminder primary key: the mapped table has the composite
primary key (id, user_id), id being declared primary_key=True on the
declarative Base and user_id primary_key=True on the Reminder model. -/
def reminderPrimaryKeyWidth : Nat := 2

/-- Session.get: identity lookup by primary key.  The identity argument
must supply exactly one value per primary-key column; a wrong count raises
InvalidRequestError before any row is consulted, and a comparison
expression object is not a legal identity value and also raises. -/
def sessionGet (s : DBState) (ident : List IdentVal) :
    Except String (Option Reminder) :=
  if ident.length ≠ reminderPrimaryKeyWidth then
    Except.error "InvalidRequestError: incorrect number of values in identifier to formulate primary key"
  else
    match ident with
    | [IdentVal.uuidVal i, IdentVal.strVal u] =>
        Except.ok ((s.rows.filter (fun r => r.id == i && r.user_id == u)).head?)
    | _ =>
        Except.error "ArgumentError: a SQL expression object is not a legal primary key identity value"

/-- DatabaseRepository.update: calls session.get with the expression
self.model.id == id in the position of the primary-key identity (a single
argument against the two-column composite key), then, had an entity been
returned, would apply the field overwrites and commit, and do nothing when
the lookup returns no entity. -/
def update (s : DBState) (id : Nat) (data : List FieldVal) :
    Except String DBState :=
  match sessionGet s [IdentVal.exprVal (Pred.idEq id)] with
  | Except.error e => Except.error e
  | Except.ok none => Except.ok s
  | Except.ok (some user) =>
      let user2 := data.foldl setattr user
      Except.ok { s with rows := s.rows.map (fun r => if r == user then user2 else r) }

end DatabaseRepository

/-- ReminderCreateDTO: the create request body accepts exactly the fields
text and date; there is no id or user_id field in the client payload. -/
structure ReminderCreateDTO where
  text : String
  date : Int
  deriving Repr, DecidableEq

/-- GET /reminder/{reminder_id}: repository.get with the two predicates
Reminder.id == reminder_id and Reminder.user_id == x_user_id; raises 404
with error_message "Reminder not found." when no row matches, otherwise
returns the row.  The x_user_id parameter is typed as a plain header
string and undergoes no UUID-format validation. -/
def get_reminder_route (s : DBState) (reminder_id : Nat) (x_user_id : String) :
    Except HTTPException Reminder :=
  match DatabaseRepository.get s [Pred.idEq reminder_id, Pred.userIdEq x_user_id] with
  | none => Except.error { status_code := 404, error_message := "Reminder not found." }
  | some reminder => Except.ok reminder

/-- GET /reminder/: builds the filter list starting from
Reminder.user_id == x_user_id, appending Reminder.date >= start_date when
start_date is given and Reminder.date <= end_date when end_date is given
(a datetime.date object is always truthy, so the Python truthiness tests
coincide with presence tests), then returns repository.filter of it. -/
def get_all_reminders_route (s : DBState) (x_user_id : String)
    (start_date : Option Int) (end_date : Option Int) : List Reminder :=
  let filters := [Pred.userIdEq x_user_id]
  let filters := match start_date with
    | some d => filters ++ [Pred.dateGe d]
    | none => filters
  let filters := match end_date with
    | some d => filters ++ [Pred.dateLe d]
    | none => filters
  DatabaseRepository.filter s filters

/-- POST /reminder/: queries repository.filter for an existing reminder
with the same user_id, text and date; if any exists, raises 409 with
error_message "Reminder already exists.", otherwise calls
repository.create with user_id from the header and text / date from the
payload and returns the new entity (status 201). -/
def create_reminder_route (s : DBState) (data : ReminderCreateDTO) (x_user_id : String) :
    Except HTTPException (Reminder × DBState) :=
  let existing_reminder := DatabaseRepository.filter s
    [Pred.userIdEq x_user_id, Pred.textEq data.text, Pred.dateEq data.date]
  if existing_reminder ≠ [] then
    Except.error { status_code := 409, error_message := "Reminder already exists." }
  else
    Except.ok (DatabaseRepository.create s x_user_id data.text data.date)

/-- DELETE /reminder/{reminder_id}: the source wraps repository.get in a
try/except whose except-branch raises the 404 HTTPException, but
repository.get returns None rather than raising when no row matches (only
storage failures, outside this model, could raise), so the except branch
is unreachable and control always proceeds to repository.delete with the
same two predicates; the handler returns no body, which the framework
turns into a 200 response. -/
def delete_reminder_route (s : DBState) (reminder_id : Nat) (x_user_id : String) :
    Except HTTPException DBState :=
  let fetched := DatabaseRepository.get s
    [Pred.idEq reminder_id, Pred.userIdEq x_user_id]
  let _ := fetched
  Except.ok (DatabaseRepository.delete s
    [Pred.idEq reminder_id, Pred.userIdEq x_user_id])

/-- One inbound request that can mutate the store, for the reachability
relation: a create or a delete (the two fetch routes do not mutate). -/
inductive Op where
  | createReq (data : ReminderCreateDTO) (u : String)
  | deleteReq (rid : Nat) (u : String)
  deriving Repr, DecidableEq

/-- State transition of one handled request: the state returned by the
route on success, the unchanged state when the route raises. -/
def routeStep (s : DBState) : Op → DBState
  | .createReq data u =>
      match create_reminder_route s data u with
      | Except.ok (_, s2) => s2
      | Except.error _ => s
  | .deleteReq rid u =>
      match delete_reminder_route s rid u with
      | Except.ok s2 => s2
      | Except.error _ => s

/-- Store states reachable from the empty store by handled requests. -/
inductive reachable : DBState → Prop
  | init : reachable initialState
  | next {s : DBState} (h : reachable s) (op : Op) : reachable (routeStep s op)

/-- Well-formedness invariant of the store: row identifiers are pairwise
distinct and below the fresh counter. -/
def DBState.wf (s : DBState) : Prop :=
  s.rows.Pairwise (fun a b => a.id ≠ b.id) ∧ ∀ r ∈ s.rows, r.id < s.nextId

/-!
The user_id column of the Reminder model is postgres UUID-typed, so a
string bound to it at query time must parse as a uuid; binding a
malformed owner string raises a storage DataError before any row is
consulted.  The plain repository and route definitions above model the
program on well-formed owner values, where the binding always succeeds;
the definitions below additionally model the binding check itself,
following the uuid input syntax of the postgres uuid type
(string_to_uuid): an optional pair of surrounding braces, then eight
groups of four hexadecimal digits with a single optional hyphen after
each non-final group.
-/

/-- Hexadecimal digit in either case, as the uuid parser accepts. -/
def isHexDigitChar (c : Char) : Bool :=
  c.isDigit || (('a' ≤ c && c ≤ 'f') || ('A' ≤ c && c ≤ 'F'))

/-- Consume one group of four hexadecimal digits at the head of the
character list, returning the remainder. -/
def hex4 : List Char → Option (List Char)
  | a :: b :: c :: d :: rest =>
      if isHexDigitChar a && isHexDigitChar b && isHexDigitChar c && isHexDigitChar d then
        some rest
      else none
  | _ => none

/-- Consume k groups of four hexadecimal digits; after each group but the
last, one optional hyphen is skipped, exactly as string_to_uuid skips a
hyphen after each odd byte except the final one. -/
def uuidGroups : Nat → List Char → Option (List Char)
  | 0, cs => some cs
  | 1, cs => hex4 cs
  | k+2, cs =>
      match hex4 cs with
      | none => none
      | some rest =>
          match rest with
          | h :: rest2 => if h = '-' then uuidGroups (k+1) rest2 else uuidGroups (k+1) rest
          | [] => none

/-- Acceptance of a string by the uuid input parse of the postgres uuid
type, to which the user_id column binds: eight groups of four
hexadecimal digits, a single optional hyphen after each non-final group,
optionally wrapped in braces; anything else raises invalid input syntax
for type uuid. -/
def string_to_uuid_ok (s : String) : Bool :=
  match s.data with
  | [] => false
  | c :: rest =>
      if c = '\x7b' then
        match uuidGroups 8 rest with
        | some [d] => d = '\x7d'
        | _ => false
      else
        match uuidGroups 8 (c :: rest) with
        | some [] => true
        | _ => false

/-- Whether the parameters of a predicate can be bound against the mapped
column types: an owner value compared with the UUID-typed user_id column
must be a well-formed uuid string; all other parameters bind as is. -/
def Pred.bindable : Pred → Bool
  | .userIdEq v => string_to_uuid_ok v
  | _ => true

/-- DatabaseRepository.get with the binding of predicate parameters to
the mapped column types modelled: a parameter that cannot be bound (a
non-uuid owner string against the UUID-typed user_id column) raises a
storage DataError before any row is consulted; otherwise the query runs
as in DatabaseRepository.get. -/
def getWithBinding (s : DBState) (args : List Pred) :
    Except String (Option Reminder) :=
  if args.all Pred.bindable then Except.ok (DatabaseRepository.get s args)
  else Except.error "DataError: invalid input syntax for type uuid"

/-- Outcome of a route handler, distinguishing a returned entity, a
raised HTTPException, and an unhandled exception that propagates out of
the handler as a 5xx server error. -/
inductive RouteOutcome where
  | ok (r : Reminder)
  | httpError (e : HTTPException)
  | serverError (msg : String)
  deriving Repr, DecidableEq

/-- GET /reminder/{reminder_id} with the store-level uuid binding of the
user_id column modelled: the handler performs no validation of the
header string and unconditionally issues the query with the owner
predicate built from it; a binding failure escapes the handler (this
route has no try/except) as an unhandled server error, an absent row
yields the 404 HTTPException, and a present row is returned. -/
def get_reminder_route_binding (s : DBState) (reminder_id : Nat) (x_user_id : String) :
    RouteOutcome :=
  match getWithBinding s [Pred.idEq reminder_id, Pred.userIdEq x_user_id] with
  | Except.error e => RouteOutcome.serverError e
  | Except.ok none =>
      RouteOutcome.httpError { status_code := 404, error_message := "Reminder not found." }
  | Except.ok (some reminder) => RouteOutcome.ok reminder

/-! Helper lemmas about the repository primitives. -/

/-- A successful repository get returns a stored row matching every
predicate. -/
lemma get_eq_some_mem {s : DBState} {args : List Pred} {e : Reminder}
    (h : DatabaseRepository.get s args = some e) :
    e ∈ s.rows ∧ matchesAll args e = true := by
  unfold DatabaseRepository.get at h
  cases hf : s.rows.filter (matchesAll args) with
  | nil => rw [hf] at h; simp at h
  | cons x xs =>
    rw [hf] at h
    simp only [List.head?_cons, Option.some.injEq] at h
    have hx : x ∈ s.rows.filter (matchesAll args) := by
      rw [hf]; exact List.mem_cons_self x xs
    rw [← h]
    exact List.mem_filter.mp hx

/-- When no stored row matches all predicates, repository get returns
none. -/
lemma get_eq_none_of_no_match {s : DBState} {args : List Pred}
    (h : ∀ r ∈ s.rows, matchesAll args r = false) :
    DatabaseRepository.get s args = none := by
  unfold DatabaseRepository.get
  rw [List.filter_eq_nil_iff.mpr (fun a ha => by simp [h a ha])]
  rfl

/-- Claim C1: the delete route is claimed to signal 404 Reminder not found
whenever no row matches both the id and the owner; the code instead
returns success, because the except-branch guarding the 404 is dead
(repository.get returns None rather than raising).  This theorem
evaluates the route at the failing inputs: deleting a nonexistent id
returns ok, and after a successful create followed by a successful
delete, the second delete of the same id also returns ok, never the 404
error. -/
theorem delete_nonexistent_returns_200 :
    delete_reminder_route initialState 1 "u" = Except.ok initialState ∧
    create_reminder_route initialState { text := "T", date := 5 } "u" =
      Except.ok ({ id := 0, user_id := "u", date := 5, text := "T" },
        { rows := [{ id := 0, user_id := "u", date := 5, text := "T" }], nextId := 1 }) ∧
    delete_reminder_route
      { rows := [{ id := 0, user_id := "u", date := 5, text := "T" }], nextId := 1 } 0 "u" =
      Except.ok { rows := [], nextId := 1 } ∧
    delete_reminder_route { rows := [], nextId := 1 } 0 "u" =
      Except.ok { rows := [], nextId := 1 } :=
  ⟨rfl, rfl, rfl, rfl⟩

/-- Claim C2: fetch-one returns a 404 error whenever no stored row
matches both the requested id and the callers owner header, and any
entity it does return is a stored row matching both. -/
theorem get_reminder_route_ownership (s : DBState) (rid : Nat) (uid : String) :
    ((∀ r ∈ s.rows, r.id = rid → r.user_id ≠ uid) →
      get_reminder_route s rid uid =
        Except.error { status_code := 404, error_message := "Reminder not found." }) ∧
    (∀ e, get_reminder_route s rid uid = Except.ok e →
      e ∈ s.rows ∧ e.id = rid ∧ e.user_id = uid) := by
  constructor
  · intro h
    have hg : DatabaseRepository.get s [Pred.idEq rid, Pred.userIdEq uid] = none := by
      apply get_eq_none_of_no_match
      intro r hr
      simp only [matchesAll, List.all_cons, List.all_nil, Bool.and_true, Pred.holds,
        Bool.and_eq_false_iff, beq_eq_false_iff_ne, ne_eq]
      by_cases hid : r.id = rid
      · exact Or.inr (h r hr hid)
      · exact Or.inl hid
    simp [get_reminder_route, hg]
  · intro e he
    have hg : DatabaseRepository.get s [Pred.idEq rid, Pred.userIdEq uid] = some e := by
      unfold get_reminder_route at he
      cases hg : DatabaseRepository.get s [Pred.idEq rid, Pred.userIdEq uid] with
      | none => rw [hg] at he; simp at he
      | some r => rw [hg] at he; simp only [Except.ok.injEq] at he; rw [he]
    obtain ⟨hmem, hmatch⟩ := get_eq_some_mem hg
    simp only [matchesAll, List.all_cons, List.all_nil, Bool.and_true, Pred.holds,
      Bool.and_eq_true, beq_iff_eq] at hmatch
    exact ⟨hmem, hmatch.1, hmatch.2⟩

/-- Claim C2 witness: a store holding one reminder owned by alice, fetched
with id 0 by bob, yields the 404 error. -/
theorem get_reminder_route_ownership_witness :
    get_reminder_route
      { rows := [{ id := 0, user_id := "alice", date := 1, text := "T" }], nextId := 1 }
      0 "bob" =
      Except.error { status_code := 404, error_message := "Reminder not found." } :=
  (get_reminder_route_ownership
    { rows := [{ id := 0, user_id := "alice", date := 1, text := "T" }], nextId := 1 }
    0 "bob").1 (by decide)

/-- Claim C7: on an empty store, repository get returns none, filter
returns the empty list and delete is a no-op, as claimed; repository
update however raises InvalidRequestError instead of being a no-op,
because it passes the single expression self.model.id == id as the
primary-key identity against the composite two-column key (id, user_id)
of Reminder. -/
theorem repository_absence_behaviour :
    DatabaseRepository.get initialState [Pred.idEq 5] = none ∧
    DatabaseRepository.filter initialState [Pred.idEq 5] = [] ∧
    DatabaseRepository.delete initialState [Pred.idEq 5] = initialState ∧
    DatabaseRepository.update initialState 5 [] =
      Except.error "InvalidRequestError: incorrect number of values in identifier to formulate primary key" :=
  ⟨rfl, rfl, rfl, rfl⟩

/-- Claim C8: repository update is claimed to fetch the entity whose id
equals the argument and apply the field overwrites to it; evaluated on a
store that does contain a row with the requested id, update still raises
(it hands session.get one identity value, a query expression, where the
composite primary key (id, user_id) requires two), so no overwrite ever
happens. -/
theorem update_raises_on_existing_id :
    DatabaseRepository.update
      { rows := [{ id := 7, user_id := "u", date := 1, text := "t" }], nextId := 8 }
      7 [DatabaseRepository.FieldVal.textField "new"] =
      Except.error "InvalidRequestError: incorrect number of values in identifier to formulate primary key" :=
  rfl

/-- Claim C9: with an empty predicate list the repository applies no
filtering: filter returns every stored row regardless of owner, and get
returns some row whenever the table is non-empty. -/
theorem empty_predicates_unscoped (s : DBState) :
    DatabaseRepository.filter s [] = s.rows ∧
    (s.rows ≠ [] → (DatabaseRepository.get s []).isSome = true) := by
  constructor
  · simp [DatabaseRepository.filter, matchesAll]
  · intro h
    unfold DatabaseRepository.get
    cases hr : s.rows with
    | nil => exact absurd hr h
    | cons x xs => simp [matchesAll]

/-- Claim C9 witness: a one-row store, queried with no predicates. -/
theorem empty_predicates_unscoped_witness :
    (DatabaseRepository.get
      { rows := [{ id := 0, user_id := "u", date := 1, text := "T" }], nextId := 1 }
      []).isSome = true :=
  (empty_predicates_unscoped
    { rows := [{ id := 0, user_id := "u", date := 1, text := "T" }], nextId := 1 }).2
    (by decide)

/-- Claim C10 counterexample: the claim says a malformed (non-UUID)
header value on fetch-one yields not-found; evaluated with the uuid
binding of the UUID-typed user_id column modelled, the header string
not-a-uuid fails at query binding and the route surfaces an unhandled
storage error, not the 404. -/
theorem malformed_header_not_404 :
    get_reminder_route_binding
      { rows := [{ id := 0, user_id := "3fa85f64-5717-4562-b3fc-2c963f66afa6",
                   date := 1, text := "T" }], nextId := 1 }
      0 "not-a-uuid" =
      RouteOutcome.serverError "DataError: invalid input syntax for type uuid" ∧
    ¬(get_reminder_route_binding
      { rows := [{ id := 0, user_id := "3fa85f64-5717-4562-b3fc-2c963f66afa6",
                   date := 1, text := "T" }], nextId := 1 }
      0 "not-a-uuid" =
      RouteOutcome.httpError { status_code := 404, error_message := "Reminder not found." }) :=
  ⟨rfl, by decide⟩

/-- Claim C10 as amended: the route layer performs no UUID-format
validation on the X-User-Id header and unconditionally queries with it
as the owner predicate; a header string the uuid parse of the UUID-typed
user_id column rejects fails at query binding and surfaces as an
unhandled storage error (a 5xx, not a 404 and not a validation error),
a well-formed header value matching no row yields the 404 not-found,
and the route itself never raises any HTTP error other than that 404. -/
theorem header_binding_behaviour (s : DBState) (rid : Nat) (u : String) :
    (string_to_uuid_ok u = false →
      get_reminder_route_binding s rid u =
        RouteOutcome.serverError "DataError: invalid input syntax for type uuid") ∧
    (string_to_uuid_ok u = true →
      (∀ r ∈ s.rows, r.id = rid → r.user_id ≠ u) →
      get_reminder_route_binding s rid u =
        RouteOutcome.httpError { status_code := 404, error_message := "Reminder not found." }) ∧
    (∀ e, get_reminder_route_binding s rid u = RouteOutcome.httpError e →
      e = { status_code := 404, error_message := "Reminder not found." }) := by
  refine ⟨?_, ?_, ?_⟩
  · intro h
    have hall : [Pred.idEq rid, Pred.userIdEq u].all Pred.bindable = false := by
      simp [Pred.bindable, h]
    simp [get_reminder_route_binding, getWithBinding, hall]
  · intro h hno
    have hall : [Pred.idEq rid, Pred.userIdEq u].all Pred.bindable = true := by
      simp [Pred.bindable, h]
    have hg : DatabaseRepository.get s [Pred.idEq rid, Pred.userIdEq u] = none := by
      apply get_eq_none_of_no_match
      intro r hr
      simp only [matchesAll, List.all_cons, List.all_nil, Bool.and_true, Pred.holds,
        Bool.and_eq_false_iff, beq_eq_false_iff_ne, ne_eq]
      by_cases hid : r.id = rid
      · exact Or.inr (hno r hr hid)
      · exact Or.inl hid
    simp [get_reminder_route_binding, getWithBinding, hall, hg]
  · intro e he
    unfold get_reminder_route_binding getWithBinding at he
    by_cases hall : [Pred.idEq rid, Pred.userIdEq u].all Pred.bindable = true
    · rw [if_pos hall] at he
      cases hg : DatabaseRepository.get s [Pred.idEq rid, Pred.userIdEq u] with
      | none =>
        rw [hg] at he
        simp only [RouteOutcome.httpError.injEq] at he
        exact he.symm
      | some r =>
        rw [hg] at he
        simp at he
    · rw [if_neg hall] at he
      simp at he

/-- Claim C10 witness: a well-formed uuid header string owning no row
yields the 404 not-found through the binding-aware route. -/
theorem header_binding_behaviour_witness :
    get_reminder_route_binding
      { rows := [{ id := 0, user_id := "3fa85f64-5717-4562-b3fc-2c963f66afa6",
                   date := 1, text := "T" }], nextId := 1 }
      0 "00000000-0000-0000-0000-000000000000" =
      RouteOutcome.httpError { status_code := 404, error_message := "Reminder not found." } :=
  (header_binding_behaviour
    { rows := [{ id := 0, user_id := "3fa85f64-5717-4562-b3fc-2c963f66afa6",
                 date := 1, text := "T" }], nextId := 1 }
    0 "00000000-0000-0000-0000-000000000000").2.1 (by decide) (by decide)

/-- Membership in the fetch-many result, uniformly in the two optional
date bounds. -/
lemma mem_get_all_reminders (s : DBState) (u : String) (sd ed : Option Int)
    (r : Reminder) :
    r ∈ get_all_reminders_route s u sd ed ↔
      (r ∈ s.rows ∧ r.user_id = u ∧
       (∀ d1, sd = some d1 → d1 ≤ r.date) ∧
       (∀ d2, ed = some d2 → r.date ≤ d2)) := by
  cases sd <;> cases ed <;>
    simp [get_all_reminders_route, DatabaseRepository.filter, List.mem_filter,
      matchesAll, Pred.holds, and_assoc]

/-- Claim C3: fetch-many returns exactly the caller-owned reminders
satisfying the supplied bounds: with only start_date those with
date >= start_date, with only end_date those with date <= end_date, with
both the inclusive range, and with neither all reminders owned by the
caller. -/
theorem get_all_reminders_route_characterization (s : DBState) (u : String) :
    (∀ d1 r, r ∈ get_all_reminders_route s u (some d1) none ↔
      r ∈ s.rows ∧ r.user_id = u ∧ d1 ≤ r.date) ∧
    (∀ d2 r, r ∈ get_all_reminders_route s u none (some d2) ↔
      r ∈ s.rows ∧ r.user_id = u ∧ r.date ≤ d2) ∧
    (∀ d1 d2 r, r ∈ get_all_reminders_route s u (some d1) (some d2) ↔
      r ∈ s.rows ∧ r.user_id = u ∧ d1 ≤ r.date ∧ r.date ≤ d2) ∧
    (∀ r, r ∈ get_all_reminders_route s u none none ↔
      r ∈ s.rows ∧ r.user_id = u) := by
  refine ⟨?_, ?_, ?_, ?_⟩ <;> intros <;> rw [mem_get_all_reminders] <;> simp [and_assoc]

/-- Claim C3 witness: the spec scenario with reminders dated 2024-01-01,
2024-01-15 and 2024-02-01 and the inclusive range 2024-01-10 to
2024-01-20 contains the 2024-01-15 reminder. -/
theorem get_all_reminders_route_characterization_witness :
    ({ id := 1, user_id := "u", date := 20240115, text := "T" } : Reminder) ∈
      get_all_reminders_route
        { rows := [{ id := 0, user_id := "u", date := 20240101, text := "T" },
                   { id := 1, user_id := "u", date := 20240115, text := "T" },
                   { id := 2, user_id := "u", date := 20240201, text := "T" }],
          nextId := 3 }
        "u" (some 20240110) (some 20240120) :=
  ((get_all_reminders_route_characterization
    { rows := [{ id := 0, user_id := "u", date := 20240101, text := "T" },
               { id := 1, user_id := "u", date := 20240115, text := "T" },
               { id := 2, user_id := "u", date := 20240201, text := "T" }],
      nextId := 3 }
    "u").2.2.1 20240110 20240120
    { id := 1, user_id := "u", date := 20240115, text := "T" }).mpr (by decide)

/-- The duplicate check of the create route is non-empty exactly when a
stored row already carries the same owner, date and text. -/
lemma create_duplicate_check (s : DBState) (data : ReminderCreateDTO) (uid : String) :
    DatabaseRepository.filter s
        [Pred.userIdEq uid, Pred.textEq data.text, Pred.dateEq data.date] ≠ [] ↔
      ∃ r ∈ s.rows, r.user_id = uid ∧ r.date = data.date ∧ r.text = data.text := by
  constructor
  · intro h
    obtain ⟨x, hx⟩ := List.exists_mem_of_ne_nil _ h
    obtain ⟨hmem, hmatch⟩ := List.mem_filter.mp hx
    simp only [matchesAll, List.all_cons, List.all_nil, Bool.and_true, Pred.holds,
      Bool.and_eq_true, beq_iff_eq] at hmatch
    exact ⟨x, hmem, hmatch.1, hmatch.2.2, hmatch.2.1⟩
  · rintro ⟨r, hr, h1, h2, h3⟩ hnil
    have hm : r ∈ DatabaseRepository.filter s
        [Pred.userIdEq uid, Pred.textEq data.text, Pred.dateEq data.date] :=
      List.mem_filter.mpr ⟨hr, by
        simp [matchesAll, Pred.holds, h1, h2, h3]⟩
    rw [hnil] at hm
    exact absurd hm (List.not_mem_nil r)

/-- Claim C4: the create route raises the 409 conflict error exactly when
a reminder with the identical owner, date and text already exists;
otherwise it persists a new reminder with the generated id and returns
it. -/
theorem create_reminder_route_conflict (s : DBState) (data : ReminderCreateDTO) (uid : String) :
    (create_reminder_route s data uid =
        Except.error { status_code := 409, error_message := "Reminder already exists." } ↔
      ∃ r ∈ s.rows, r.user_id = uid ∧ r.date = data.date ∧ r.text = data.text) ∧
    ((∀ r ∈ s.rows, ¬(r.user_id = uid ∧ r.date = data.date ∧ r.text = data.text)) →
      create_reminder_route s data uid =
        Except.ok ({ id := s.nextId, user_id := uid, date := data.date, text := data.text },
          { rows := s.rows ++
              [{ id := s.nextId, user_id := uid, date := data.date, text := data.text }],
            nextId := s.nextId + 1 })) := by
  constructor
  · rw [← create_duplicate_check s data uid]
    unfold create_reminder_route
    by_cases hc : DatabaseRepository.filter s
        [Pred.userIdEq uid, Pred.textEq data.text, Pred.dateEq data.date] = []
    · simp [hc]
    · simp [hc]
  · intro h
    have hc : DatabaseRepository.filter s
        [Pred.userIdEq uid, Pred.textEq data.text, Pred.dateEq data.date] = [] := by
      by_contra hne
      obtain ⟨r, hr, h1, h2, h3⟩ := (create_duplicate_check s data uid).mp hne
      exact h r hr ⟨h1, h2, h3⟩
    unfold create_reminder_route
    simp [hc, DatabaseRepository.create]

/-- Claim C4 witness: creating the same text and date twice for the same
owner; the second create raises the 409 conflict. -/
theorem create_reminder_route_conflict_witness :
    create_reminder_route
      { rows := [{ id := 0, user_id := "u", date := 5, text := "T" }], nextId := 1 }
      { text := "T", date := 5 } "u" =
      Except.error { status_code := 409, error_message := "Reminder already exists." } :=
  (create_reminder_route_conflict
    { rows := [{ id := 0, user_id := "u", date := 5, text := "T" }], nextId := 1 }
    { text := "T", date := 5 } "u").1.mpr
    ⟨{ id := 0, user_id := "u", date := 5, text := "T" }, by decide, rfl, rfl, rfl⟩

/-- Claim C5: a successful create returns an entity whose date and text
equal the payload fields, whose user_id equals the header value and whose
id is the server-generated fresh identifier; the entity is persisted, and
the create payload type carries no id or user_id field (two payloads
agreeing on date and text are equal). -/
theorem create_reminder_route_response (s : DBState) (data : ReminderCreateDTO)
    (uid : String) (r : Reminder) (s2 : DBState)
    (h : create_reminder_route s data uid = Except.ok (r, s2)) :
    r.date = data.date ∧ r.text = data.text ∧ r.user_id = uid ∧ r.id = s.nextId ∧
    r ∈ s2.rows ∧
    ∀ d1 d2 : ReminderCreateDTO, d1.date = d2.date → d1.text = d2.text → d1 = d2 := by
  simp only [create_reminder_route] at h
  split at h
  · simp at h
  · simp only [DatabaseRepository.create, Except.ok.injEq, Prod.mk.injEq] at h
    obtain ⟨h1, h2⟩ := h
    subst h1
    subst h2
    refine ⟨rfl, rfl, rfl, rfl, ?_, ?_⟩
    · simp
    · intro d1 d2 hd ht
      cases d1; cases d2
      simp_all

/-- Claim C5 witness: the concrete create of date 5 and text T by owner u
succeeds and its response fields follow from the theorem. -/
theorem create_reminder_route_response_witness :
    ({ id := 0, user_id := "u", date := 5, text := "T" } : Reminder).date = (5 : Int) ∧
    ({ id := 0, user_id := "u", date := 5, text := "T" } : Reminder).user_id = "u" :=
  ⟨(create_reminder_route_response initialState { text := "T", date := 5 } "u"
      { id := 0, user_id := "u", date := 5, text := "T" }
      { rows := [{ id := 0, user_id := "u", date := 5, text := "T" }], nextId := 1 }
      rfl).1,
   (create_reminder_route_response initialState { text := "T", date := 5 } "u"
      { id := 0, user_id := "u", date := 5, text := "T" }
      { rows := [{ id := 0, user_id := "u", date := 5, text := "T" }], nextId := 1 }
      rfl).2.2.1⟩

/-- The empty store is well-formed. -/
lemma wf_initial : initialState.wf :=
  ⟨List.Pairwise.nil, by simp [initialState]⟩

/-- Inversion of a successful create: the returned entity carries the
fresh identifier and the new state appends it to the table. -/
lemma create_route_ok_state {s : DBState} {data : ReminderCreateDTO} {u : String}
    {r : Reminder} {s2 : DBState}
    (h : create_reminder_route s data u = Except.ok (r, s2)) :
    r = { id := s.nextId, user_id := u, date := data.date, text := data.text } ∧
    s2 = { rows := s.rows ++ [r], nextId := s.nextId + 1 } := by
  simp only [create_reminder_route] at h
  split at h
  · simp at h
  · simp only [DatabaseRepository.create, Except.ok.injEq, Prod.mk.injEq] at h
    obtain ⟨h1, h2⟩ := h
    subst h1
    exact ⟨rfl, h2.symm⟩

/-- One handled request preserves the store invariant. -/
lemma wf_routeStep {s : DBState} (h : s.wf) (op : Op) : (routeStep s op).wf := by
  obtain ⟨hp, hb⟩ := h
  cases op with
  | createReq data u =>
    simp only [routeStep]
    cases hc : create_reminder_route s data u with
    | error e => exact ⟨hp, hb⟩
    | ok p =>
      obtain ⟨r, s2⟩ := p
      obtain ⟨hr, hs2⟩ := create_route_ok_state hc
      show s2.wf
      subst hs2
      constructor
      · rw [List.pairwise_append]
        refine ⟨hp, List.pairwise_singleton _ _, ?_⟩
        intro a ha b hbm
        simp only [List.mem_singleton] at hbm
        subst hbm
        rw [hr]
        exact Nat.ne_of_lt (hb a ha)
      · intro x hx
        rw [List.mem_append] at hx
        rcases hx with hx | hx
        · exact Nat.lt_succ_of_lt (hb x hx)
        · simp only [List.mem_singleton] at hx
          subst hx
          rw [hr]
          exact Nat.lt_succ_self _
  | deleteReq rid u =>
    simp only [routeStep]
    show (DatabaseRepository.delete s [Pred.idEq rid, Pred.userIdEq u]).wf
    unfold DatabaseRepository.delete
    cases DatabaseRepository.get s [Pred.idEq rid, Pred.userIdEq u] with
    | none => exact ⟨hp, hb⟩
    | some obj =>
      have hsub : List.Sublist (s.rows.eraseP (fun r => r == obj)) s.rows :=
        List.eraseP_sublist s.rows
      exact ⟨hp.sublist hsub, fun x hx => hb x (hsub.subset hx)⟩

/-- Every reachable store is well-formed. -/
lemma reachable_wf {s : DBState} (h : reachable s) : s.wf := by
  induction h with
  | init => exact wf_initial
  | next _ op ih => exact wf_routeStep ih op

/-- In a table with pairwise-distinct identifiers, filtering on the id
and owner of a stored row yields exactly that row. -/
lemma filter_id_user_eq_singleton {l : List Reminder} {r : Reminder}
    (hp : l.Pairwise (fun a b => a.id ≠ b.id)) (hr : r ∈ l) :
    l.filter (matchesAll [Pred.idEq r.id, Pred.userIdEq r.user_id]) = [r] := by
  induction l with
  | nil => cases hr
  | cons a t ih =>
    rw [List.pairwise_cons] at hp
    obtain ⟨ha, ht⟩ := hp
    rcases List.mem_cons.mp hr with rfl | hrt
    · rw [List.filter_cons_of_pos (by simp [matchesAll, Pred.holds])]
      have hnil : t.filter (matchesAll [Pred.idEq r.id, Pred.userIdEq r.user_id]) = [] := by
        rw [List.filter_eq_nil_iff]
        intro b hb
        simp only [matchesAll, List.all_cons, List.all_nil, Bool.and_true, Pred.holds,
          Bool.and_eq_true, beq_iff_eq, not_and]
        intro hid
        exact absurd hid.symm (ha b hb)
      rw [hnil]
    · have hne : a.id ≠ r.id := ha r hrt
      rw [List.filter_cons_of_neg (by
        simp only [matchesAll, List.all_cons, List.all_nil, Bool.and_true, Pred.holds,
          Bool.and_eq_true, beq_iff_eq, not_and]
        intro hid
        exact absurd hid hne)]
      exact ih ht hrt

/-- Claim C6: in every store reachable through the service routes, the
identifiers of any two distinct persisted rows differ, and fetching any
persisted row by its id and owner returns exactly that row (the id is
stable across subsequent fetches). -/
theorem reminder_ids_unique (s : DBState) (h : reachable s) :
    s.rows.Pairwise (fun a b => a.id ≠ b.id) ∧
    ∀ r ∈ s.rows, get_reminder_route s r.id r.user_id = Except.ok r := by
  obtain ⟨hp, _⟩ := reachable_wf h
  refine ⟨hp, ?_⟩
  intro r hr
  have hf := filter_id_user_eq_singleton hp hr
  simp [get_reminder_route, DatabaseRepository.get, hf]

/-- Claim C6 witness: the store reached by one successful create has
pairwise-distinct identifiers. -/
theorem reminder_ids_unique_witness :
    (routeStep initialState (Op.createReq { text := "T", date := 1 } "u")).rows.Pairwise
      (fun a b => a.id ≠ b.id) :=
  (reminder_ids_unique _
    (reachable.next reachable.init (Op.createReq { text := "T", date := 1 } "u"))).1

end ReminderService
